import Mathlib

/-!
Verification of the NETCONF lock / unlock operations of Netopeer2
(src/server/op_un_lock.c).

The file shallowly embeds the two handlers `op_lock` and `op_unlock`.
Shared mutable state is the process-wide `dslock` table; a session is
represented by its numeric id (`nc_session_get_id`), pointers being in
one-to-one correspondence with ids.  The sysrepo backend is an oracle
given per call (`LockEnv`): the success of `sr_lock_datastore` /
`sr_unlock_datastore`, the queued error messages drained by
`op_build_err_sr`, and the value of `time(NULL)`.  Every sysrepo call
the handler performs is recorded in an explicit call trace.

Concurrency: the guard `dslock_rwl` is held from the write acquisition
across the sysrepo call up to the final unlock, so handler bodies
linearize except for the single window between releasing the read
acquisition and obtaining the write acquisition.  Interference of other
threads in that window is modelled by an explicit table transformer
`gap`; a sequential (linearized) run instantiates `gap = id`.
-/

namespace Netopeer2

/-- Sysrepo datastore selector: the `sr_datastore_t` values the lock
operations can target. -/
inductive SrDatastore where
  | running
  | startup
  | candidate
deriving DecidableEq, Repr

/-- The process-wide lock table `dslock`: per datastore, the owning
NETCONF session (`NULL`, i.e. `none`, when unlocked; a session is its
id) and the acquisition `time_t` (0 when unlocked). -/
structure DsLockInfo where
  running : Option Nat
  running_time : Nat
  startup : Option Nat
  startup_time : Nat
  candidate : Option Nat
  candidate_time : Nat
deriving DecidableEq, Repr

/-- Read the owner field `*dsl` selected for a datastore. -/
def getDsl (t : DsLockInfo) : SrDatastore → Option Nat
  | .running => t.running
  | .startup => t.startup
  | .candidate => t.candidate

/-- Read the timestamp field `*dst` selected for a datastore. -/
def getDst (t : DsLockInfo) : SrDatastore → Nat
  | .running => t.running_time
  | .startup => t.startup_time
  | .candidate => t.candidate_time

/-- Write the owner field `*dsl` selected for a datastore. -/
def setDsl (t : DsLockInfo) (ds : SrDatastore) (v : Option Nat) : DsLockInfo :=
  match ds with
  | .running => { t with running := v }
  | .startup => { t with startup := v }
  | .candidate => { t with candidate := v }

/-- Write the timestamp field `*dst` selected for a datastore. -/
def setDst (t : DsLockInfo) (ds : SrDatastore) (v : Nat) : DsLockInfo :=
  match ds with
  | .running => { t with running_time := v }
  | .startup => { t with startup_time := v }
  | .candidate => { t with candidate_time := v }

/-- The `strcmp` dispatch on the target leaf name (lines 52-70 of
`op_lock`, lines 145-162 of `op_unlock`): which datastore a name
selects, `none` for an unrecognized name. -/
def dsOfName (dsname : String) : Option SrDatastore :=
  if dsname = "running" then some SrDatastore.running
  else if dsname = "startup" then some SrDatastore.startup
  else if dsname = "candidate" then some SrDatastore.candidate
  else none

/-- The `np2_sessions` data attached to a NETCONF session; only the
currently selected sysrepo datastore `ds` matters to these handlers. -/
structure Np2Sessions where
  ds : SrDatastore
deriving DecidableEq, Repr

/-- Oracle for the sysrepo interactions of one handler invocation:
whether `sr_lock_datastore` / `sr_unlock_datastore` returns `SR_ERR_OK`,
the queued error messages `op_build_err_sr` drains on failure, and the
value `time(NULL)` returns. -/
structure LockEnv where
  srOk : Bool
  srMsgs : List String
  now : Nat
deriving DecidableEq, Repr

/-- One sysrepo call made by a handler, in order of occurrence. -/
inductive EngCall where
  | switchDs (ds : SrDatastore)
  | lockDs
  | unlockDs
  | discard
  | drainErrors
deriving DecidableEq, Repr

/-- One `nc_server_error` of a reply: `NC_ERR_OP_FAILED` of type
protocol with its message, `NC_ERR_LOCK_DENIED` with the holding
session id (0 when unknown), or an error translated from a queued
sysrepo message. -/
inductive NcErr where
  | opFailed (msg : String)
  | lockDenied (sid : Nat)
  | srError (msg : String)
deriving DecidableEq, Repr

/-- A `nc_server_reply`: `nc_server_reply_ok` or an error reply holding
its list of errors. -/
inductive NcReply where
  | ok
  | err (errs : List NcErr)
deriving DecidableEq, Repr

/-- Everything a handler invocation produces: the reply, the lock table
after the invocation, the (possibly switched) session data, and the
trace of sysrepo calls made. -/
structure OpResult where
  reply : NcReply
  table : DsLockInfo
  sess : Np2Sessions
  calls : List EngCall
deriving DecidableEq, Repr

/-- Modelled from the spec: the diagnostics message the `EINT` macro
(common.h, outside this fragment) logs and `np2log_lasterr` then hands
to `nc_err_set_msg` on the unrecognized-target path. -/
def eintMsg : String := "Internal error (op_un_lock.c)."

/-- Modelled from the spec: the diagnostics message logged by `ERR` and
attached via `np2log_lasterr` when unlocking a datastore that is not
locked (line 173 of `op_unlock`). -/
def notActiveMsg (dsname : String) (sid : Nat) : String :=
  "Unlocking datastore " ++ dsname ++ " by session " ++ toString sid ++
    " failed (lock is not active)."

/-- Modelled from the spec: `op_build_err_sr` (common.c, outside this
fragment) drains the backend engine's queued error messages and
translates each into an error entry of the reply; with no queued
messages it yields no reply (here: the empty list). -/
def op_build_err_sr (msgs : List String) : List NcErr :=
  msgs.map NcErr.srError

/-- Shallow embedding of `op_lock` (op_un_lock.c lines 31-122).
`ncs` is the requesting session id, `sess` its `np2_sessions` data,
`dsname` the target leaf name from the RPC, `env` the sysrepo oracle,
`gap` the interference of other threads between the read-acquisition
release (line 88) and the write acquisition (line 90), and `t` the
`dslock` table at entry. -/
def op_lock (ncs : Nat) (sess : Np2Sessions) (dsname : String) (env : LockEnv)
    (gap : DsLockInfo → DsLockInfo) (t : DsLockInfo) : OpResult :=
  match dsOfName dsname with
  | none =>
      { reply := NcReply.err [NcErr.opFailed eintMsg], table := t,
        sess := sess, calls := [] }
  | some ds =>
      let sw := if ds = sess.ds then ([] : List EngCall) else [EngCall.switchDs ds]
      let sess1 := if ds = sess.ds then sess else { sess with ds := ds }
      match getDsl t ds with
      | some holder =>
          { reply := NcReply.err [NcErr.lockDenied holder], table := t,
            sess := sess1, calls := sw }
      | none =>
          let t2 := gap t
          match getDsl t2 ds with
          | some holder =>
              { reply := NcReply.err [NcErr.lockDenied holder], table := t2,
                sess := sess1, calls := sw }
          | none =>
              if env.srOk then
                { reply := NcReply.ok,
                  table := setDst (setDsl t2 ds (some ncs)) ds env.now,
                  sess := sess1, calls := sw ++ [EngCall.lockDs] }
              else
                { reply := NcReply.err
                    (op_build_err_sr env.srMsgs ++ [NcErr.lockDenied 0]),
                  table := t2, sess := sess1,
                  calls := sw ++ [EngCall.lockDs, EngCall.drainErrors] }

/-- Shallow embedding of `op_unlock` (op_un_lock.c lines 124-223);
parameters as in `op_lock`, with `gap` the interference between line
190 and line 191.  Note the absence of any ownership re-check after the
write acquisition. -/
def op_unlock (ncs : Nat) (sess : Np2Sessions) (dsname : String) (env : LockEnv)
    (gap : DsLockInfo → DsLockInfo) (t : DsLockInfo) : OpResult :=
  match dsOfName dsname with
  | none =>
      { reply := NcReply.err [NcErr.opFailed eintMsg], table := t,
        sess := sess, calls := [] }
  | some ds =>
      let sw := if ds = sess.ds then ([] : List EngCall) else [EngCall.switchDs ds]
      let sess1 := if ds = sess.ds then sess else { sess with ds := ds }
      match getDsl t ds with
      | none =>
          { reply := NcReply.err [NcErr.opFailed (notActiveMsg dsname ncs)],
            table := t, sess := sess1, calls := sw }
      | some holder =>
          if holder = ncs then
            let t2 := gap t
            if env.srOk then
              { reply := NcReply.ok,
                table := setDst (setDsl t2 ds none) ds 0,
                sess := sess1,
                calls := sw ++ [EngCall.unlockDs, EngCall.discard] }
            else
              { reply := NcReply.err
                  (op_build_err_sr env.srMsgs ++ [NcErr.lockDenied 0]),
                table := t2, sess := sess1,
                calls := sw ++ [EngCall.unlockDs, EngCall.drainErrors] }
          else
            { reply := NcReply.err [NcErr.lockDenied holder], table := t,
              sess := sess1, calls := sw }

/-- A linearized handler invocation: which handler, by which session,
with which `np2_sessions` data, target name and sysrepo oracle. -/
inductive Op where
  | lock (ncs : Nat) (sess : Np2Sessions) (dsname : String) (env : LockEnv)
  | unlock (ncs : Nat) (sess : Np2Sessions) (dsname : String) (env : LockEnv)
deriving DecidableEq, Repr

/-- Apply one linearized invocation to the shared lock table.  The
guard is held across the sysrepo call, so invocations serialize and the
read-to-write window sees no interference (`gap = id`). -/
def applyOp (op : Op) (t : DsLockInfo) : OpResult :=
  match op with
  | Op.lock ncs sess dsname env => op_lock ncs sess dsname env id t
  | Op.unlock ncs sess dsname env => op_unlock ncs sess dsname env id t

/-- Run a list of linearized invocations, threading the lock table. -/
def runOps (ops : List Op) (t : DsLockInfo) : DsLockInfo :=
  match ops with
  | [] => t
  | op :: rest => runOps rest (applyOp op t).table

/-- The invocation is an unlock of datastore `ds` by session `a` whose
sysrepo unlock call succeeds: the only kind of invocation that can
release a lock `a` holds on `ds`. -/
def releasesBy (a : Nat) (ds : SrDatastore) (op : Op) : Prop :=
  match op with
  | Op.lock _ _ _ _ => False
  | Op.unlock ncs _ dsname env =>
      ncs = a ∧ dsOfName dsname = some ds ∧ env.srOk = true

instance releasesBy.dec (a : Nat) (ds : SrDatastore) (op : Op) :
    Decidable (releasesBy a ds op) :=
  match op with
  | Op.lock _ _ _ _ => isFalse (fun h => h)
  | Op.unlock ncs _ dsname env =>
      inferInstanceAs (Decidable (ncs = a ∧ dsOfName dsname = some ds ∧ env.srOk = true))

/-- The all-unlocked table the process starts with. -/
def tbl0 : DsLockInfo :=
  { running := none, running_time := 0, startup := none, startup_time := 0,
    candidate := none, candidate_time := 0 }

/-- A table in which session 1 holds the lock on `running` since time 5. -/
def tblR1 : DsLockInfo :=
  { running := some 1, running_time := 5, startup := none, startup_time := 0,
    candidate := none, candidate_time := 0 }

/-- A table in which session 2 holds the lock on `running` since time 8. -/
def tblR2 : DsLockInfo :=
  { running := some 2, running_time := 8, startup := none, startup_time := 0,
    candidate := none, candidate_time := 0 }

/-- The per-slot data invariant of the table: an owner is recorded
exactly when an acquisition time is recorded (nonzero `time_t`). -/
def slotInv (t : DsLockInfo) : Prop :=
  (t.running = none ↔ t.running_time = 0) ∧
  (t.startup = none ↔ t.startup_time = 0) ∧
  (t.candidate = none ↔ t.candidate_time = 0)

instance slotInv.dec (t : DsLockInfo) : Decidable (slotInv t) :=
  inferInstanceAs (Decidable (_ ∧ _ ∧ _))

/-- Writing a timestamp never changes any owner field. -/
theorem getDsl_setDst (t : DsLockInfo) (ds : SrDatastore) (v : Nat)
    (ds2 : SrDatastore) : getDsl (setDst t ds v) ds2 = getDsl t ds2 := by
  cases ds <;> cases ds2 <;> rfl

/-- Writing an owner never changes any timestamp field. -/
theorem getDst_setDsl (t : DsLockInfo) (ds : SrDatastore) (v : Option Nat)
    (ds2 : SrDatastore) : getDst (setDsl t ds v) ds2 = getDst t ds2 := by
  cases ds <;> cases ds2 <;> rfl

/-- Reading an owner after writing one: the written value on the same
datastore, the old value elsewhere. -/
theorem getDsl_setDsl (t : DsLockInfo) (ds : SrDatastore) (v : Option Nat)
    (ds2 : SrDatastore) :
    getDsl (setDsl t ds v) ds2 = if ds2 = ds then v else getDsl t ds2 := by
  cases ds <;> cases ds2 <;> rfl

/-- Reading a timestamp after writing one: the written value on the
same datastore, the old value elsewhere. -/
theorem getDst_setDst (t : DsLockInfo) (ds : SrDatastore) (v : Nat)
    (ds2 : SrDatastore) :
    getDst (setDst t ds v) ds2 = if ds2 = ds then v else getDst t ds2 := by
  cases ds <;> cases ds2 <;> rfl

/-- No invocation other than a successful unlock by the owner itself
can change the owner of a locked datastore. -/
theorem owner_preserved (a : Nat) (ds : SrDatastore) (op : Op) (t : DsLockInfo)
    (hA : getDsl t ds = some a) (hno : ¬ releasesBy a ds op) :
    getDsl (applyOp op t).table ds = some a := by
  cases op with
  | lock ncs sess dsname env =>
      show getDsl (op_lock ncs sess dsname env id t).table ds = some a
      unfold op_lock
      simp only [id_eq]
      split
      · exact hA
      next ds2 hn =>
        split
        next holder h2 => exact hA
        next h2 =>
          split
          next holder h3 => exact Option.noConfusion h3
          next h3 =>
            split
            next hok =>
              have hne : ds ≠ ds2 := by
                intro he
                rw [he, h2] at hA
                exact Option.noConfusion hA
              rw [getDsl_setDst, getDsl_setDsl]
              simp [hne, hA]
            next hok => exact hA
  | unlock ncs sess dsname env =>
      show getDsl (op_unlock ncs sess dsname env id t).table ds = some a
      unfold op_unlock
      simp only [id_eq]
      split
      · exact hA
      next ds2 hn =>
        split
        next h2 => exact hA
        next holder h2 =>
          split
          next hh =>
            split
            next hok =>
              have hne : ds ≠ ds2 := by
                intro he
                apply hno
                subst he
                rw [h2] at hA
                injection hA with hA2
                exact ⟨hh ▸ hA2, hn, hok⟩
              rw [getDsl_setDst, getDsl_setDsl]
              simp [hne, hA]
            next hok => exact hA
          next hh => exact hA

/-- `owner_preserved` extended over a run: a lock held by `a` on `ds`
survives any sequence of invocations none of which is a successful
unlock of `ds` by `a`. -/
theorem owner_preserved_run (a : Nat) (ds : SrDatastore) (ops : List Op)
    (t : DsLockInfo) (hA : getDsl t ds = some a)
    (hno : ∀ op ∈ ops, ¬ releasesBy a ds op) :
    getDsl (runOps ops t) ds = some a := by
  induction ops generalizing t with
  | nil => exact hA
  | cons op rest ih =>
      exact ih (applyOp op t).table
        (owner_preserved a ds op t hA (hno op (List.mem_cons_self op rest)))
        (fun op2 h2 => hno op2 (List.mem_cons_of_mem op h2))

/-- C1: once session `a` holds the lock on store `ds`, every `op_lock`
attempt on `ds` by any session `b` is denied with holder `a` and leaves
the table unchanged, as long as no successful `op_unlock` of `ds` by
`a` has intervened — at most one session at a time holds the lock. -/
theorem c1_mutual_exclusion (a b : Nat) (ds : SrDatastore) (sess : Np2Sessions)
    (dsname : String) (env : LockEnv) (ops : List Op) (t : DsLockInfo)
    (hA : getDsl t ds = some a)
    (hname : dsOfName dsname = some ds)
    (hno : ∀ op ∈ ops, ¬ releasesBy a ds op) :
    (op_lock b sess dsname env id (runOps ops t)).reply
        = NcReply.err [NcErr.lockDenied a] ∧
    (op_lock b sess dsname env id (runOps ops t)).table = runOps ops t := by
  have h := owner_preserved_run a ds ops t hA hno
  unfold op_lock
  simp only [hname, h]
  exact ⟨trivial, trivial⟩

theorem c1_witness :
    (op_lock 2 { ds := SrDatastore.running } "running"
        { srOk := true, srMsgs := [], now := 9 } id
        (runOps
          [Op.unlock 3 { ds := SrDatastore.running } "running"
            { srOk := true, srMsgs := [], now := 9 },
           Op.lock 2 { ds := SrDatastore.startup } "startup"
            { srOk := true, srMsgs := [], now := 9 }] tblR1)).reply
      = NcReply.err [NcErr.lockDenied 1] ∧
    (op_lock 2 { ds := SrDatastore.running } "running"
        { srOk := true, srMsgs := [], now := 9 } id
        (runOps
          [Op.unlock 3 { ds := SrDatastore.running } "running"
            { srOk := true, srMsgs := [], now := 9 },
           Op.lock 2 { ds := SrDatastore.startup } "startup"
            { srOk := true, srMsgs := [], now := 9 }] tblR1)).table
      = runOps
          [Op.unlock 3 { ds := SrDatastore.running } "running"
            { srOk := true, srMsgs := [], now := 9 },
           Op.lock 2 { ds := SrDatastore.startup } "startup"
            { srOk := true, srMsgs := [], now := 9 }] tblR1 :=
  c1_mutual_exclusion 1 2 SrDatastore.running { ds := SrDatastore.running }
    "running" { srOk := true, srMsgs := [], now := 9 }
    [Op.unlock 3 { ds := SrDatastore.running } "running"
      { srOk := true, srMsgs := [], now := 9 },
     Op.lock 2 { ds := SrDatastore.startup } "startup"
      { srOk := true, srMsgs := [], now := 9 }] tblR1
    (by decide) (by decide) (by decide)

/-- C2: `op_lock` fails with lock-denied naming the current holder
whenever the slot's owner is set, whether that is seen at the read-mode
check or — after the window `gap` in which another thread may have
taken the lock — at the authoritative write-mode re-check. -/
theorem c2_denied_at_either_check (ncs : Nat) (sess : Np2Sessions)
    (dsname : String) (env : LockEnv) (gap : DsLockInfo → DsLockInfo)
    (t : DsLockInfo) (ds : SrDatastore) (holder : Nat)
    (hname : dsOfName dsname = some ds) :
    (getDsl t ds = some holder →
      (op_lock ncs sess dsname env gap t).reply
        = NcReply.err [NcErr.lockDenied holder]) ∧
    (getDsl t ds = none → getDsl (gap t) ds = some holder →
      (op_lock ncs sess dsname env gap t).reply
        = NcReply.err [NcErr.lockDenied holder]) := by
  constructor
  · intro h1
    unfold op_lock
    simp only [hname, h1]
  · intro h1 h2
    unfold op_lock
    simp only [hname, h1, h2]

theorem c2_witness :
    (op_lock 2 { ds := SrDatastore.running } "running"
        { srOk := true, srMsgs := [], now := 9 } (fun _ => tblR1) tbl0).reply
      = NcReply.err [NcErr.lockDenied 1] :=
  (c2_denied_at_either_check 2 { ds := SrDatastore.running } "running"
      { srOk := true, srMsgs := [], now := 9 } (fun _ => tblR1) tbl0
      SrDatastore.running 1 (by decide)).2 (by decide) (by decide)

/-- C3 as stated is false: on a sysrepo lock failure with queued
engine messages present, the generic lock-denied error with holder 0
is still synthesized and appended to the translated messages — it is
not reserved for the no-messages case. -/
theorem c3_counterexample :
    (op_lock 2 { ds := SrDatastore.running } "running"
        { srOk := false, srMsgs := ["engine busy"], now := 7 } id tbl0).reply
      = NcReply.err [NcErr.srError "engine busy", NcErr.lockDenied 0] ∧
    (op_lock 2 { ds := SrDatastore.running } "running"
        { srOk := false, srMsgs := ["engine busy"], now := 7 } id tbl0).reply
      ≠ NcReply.err [NcErr.srError "engine busy"] := by
  decide

/-- C3 (amended): when the sysrepo lock call fails while the slot is
unowned, the reply carries the engine's drained messages with a
generic lock-denied (holder 0) error appended — the reply is just the
generic error exactly when the engine gave no messages — and the slot
table is left unchanged, the store still unowned. -/
theorem c3_engine_lock_failure (ncs : Nat) (sess : Np2Sessions)
    (dsname : String) (env : LockEnv) (t : DsLockInfo) (ds : SrDatastore)
    (hname : dsOfName dsname = some ds)
    (hnone : getDsl t ds = none)
    (hfail : env.srOk = false) :
    (op_lock ncs sess dsname env id t).reply
        = NcReply.err (op_build_err_sr env.srMsgs ++ [NcErr.lockDenied 0]) ∧
    (env.srMsgs = [] →
      (op_lock ncs sess dsname env id t).reply
        = NcReply.err [NcErr.lockDenied 0]) ∧
    (op_lock ncs sess dsname env id t).table = t := by
  unfold op_lock
  simp only [id_eq, hname, hnone, hfail, Bool.false_eq_true, if_false]
  refine ⟨trivial, ?_, trivial⟩
  intro hm
  rw [hm]
  rfl

theorem c3_witness :
    (op_lock 2 { ds := SrDatastore.running } "running"
        { srOk := false, srMsgs := [], now := 7 } id tbl0).table = tbl0 :=
  (c3_engine_lock_failure 2 { ds := SrDatastore.running } "running"
      { srOk := false, srMsgs := [], now := 7 } tbl0 SrDatastore.running
      (by decide) (by decide) (by decide)).2.2

/-- C4: a successful `op_lock` mutates exactly one slot — it sets that
store's owner to the requesting session and its timestamp to the
current time and leaves every other slot untouched — while every
failing `op_lock` leaves the whole table unchanged. -/
theorem c4_acquire_frame (ncs : Nat) (sess : Np2Sessions) (dsname : String)
    (env : LockEnv) (t : DsLockInfo) (ds : SrDatastore) :
    (dsOfName dsname = some ds →
      (op_lock ncs sess dsname env id t).reply = NcReply.ok →
      (op_lock ncs sess dsname env id t).table
          = setDst (setDsl t ds (some ncs)) ds env.now ∧
      getDsl (op_lock ncs sess dsname env id t).table ds = some ncs ∧
      getDst (op_lock ncs sess dsname env id t).table ds = env.now ∧
      (∀ ds2, ds2 ≠ ds →
        getDsl (op_lock ncs sess dsname env id t).table ds2 = getDsl t ds2 ∧
        getDst (op_lock ncs sess dsname env id t).table ds2 = getDst t ds2)) ∧
    ((op_lock ncs sess dsname env id t).reply ≠ NcReply.ok →
      (op_lock ncs sess dsname env id t).table = t) := by
  constructor
  · intro hname hok
    cases h2 : getDsl t ds with
    | some holder =>
        simp only [op_lock, hname, h2] at hok
        exact NcReply.noConfusion hok
    | none =>
        cases h3 : env.srOk with
        | false =>
            simp only [op_lock, hname, h2, h3, id_eq, Bool.false_eq_true,
              if_false] at hok
            exact NcReply.noConfusion hok
        | true =>
            have htab : (op_lock ncs sess dsname env id t).table
                = setDst (setDsl t ds (some ncs)) ds env.now := by
              simp only [op_lock, hname, h2, h3, id_eq, eq_self_iff_true,
                if_true]
            refine ⟨htab, ?_, ?_, ?_⟩
            · rw [htab, getDsl_setDst, getDsl_setDsl]
              simp
            · rw [htab, getDst_setDst]
              simp
            · intro ds2 hne2
              rw [htab, getDsl_setDst, getDsl_setDsl, getDst_setDst,
                getDst_setDsl]
              simp [hne2]
  · intro hne
    cases hn : dsOfName dsname with
    | none => simp only [op_lock, hn]
    | some ds2 =>
        cases h2 : getDsl t ds2 with
        | some holder => simp only [op_lock, hn, h2]
        | none =>
            cases h3 : env.srOk with
            | true =>
                exact absurd (by
                  simp only [op_lock, hn, h2, h3, id_eq, eq_self_iff_true,
                    if_true]) hne
            | false =>
                simp only [op_lock, hn, h2, h3, id_eq, Bool.false_eq_true,
                  if_false]

theorem c4_witness :
    (op_lock 1 { ds := SrDatastore.running } "startup"
        { srOk := true, srMsgs := [], now := 5 } id tbl0).table
      = setDst (setDsl tbl0 SrDatastore.startup (some 1)) SrDatastore.startup 5 ∧
    getDsl (op_lock 1 { ds := SrDatastore.running } "startup"
        { srOk := true, srMsgs := [], now := 5 } id tbl0).table
      SrDatastore.running = getDsl tbl0 SrDatastore.running :=
  ⟨((c4_acquire_frame 1 { ds := SrDatastore.running } "startup"
      { srOk := true, srMsgs := [], now := 5 } tbl0 SrDatastore.startup).1
      (by decide) (by decide)).1,
   (((c4_acquire_frame 1 { ds := SrDatastore.running } "startup"
      { srOk := true, srMsgs := [], now := 5 } tbl0 SrDatastore.startup).1
      (by decide) (by decide)).2.2.2 SrDatastore.running (by decide)).1⟩

/-- C5: an `op_unlock` whose sysrepo unlock call succeeds
unconditionally issues the discard of pending changes right after the
unlock call, clears the slot's owner and timestamp, and replies ok. -/
theorem c5_release_success (ncs : Nat) (sess : Np2Sessions) (dsname : String)
    (env : LockEnv) (t : DsLockInfo) (ds : SrDatastore)
    (hname : dsOfName dsname = some ds)
    (hown : getDsl t ds = some ncs)
    (hok : env.srOk = true) :
    (op_unlock ncs sess dsname env id t).reply = NcReply.ok ∧
    (op_unlock ncs sess dsname env id t).calls
        = (if ds = sess.ds then [] else [EngCall.switchDs ds])
          ++ [EngCall.unlockDs, EngCall.discard] ∧
    (op_unlock ncs sess dsname env id t).table = setDst (setDsl t ds none) ds 0 ∧
    getDsl (op_unlock ncs sess dsname env id t).table ds = none ∧
    getDst (op_unlock ncs sess dsname env id t).table ds = 0 := by
  simp only [op_unlock, hname, hown, hok, id_eq, eq_self_iff_true, if_true,
    getDsl_setDst, getDsl_setDsl, getDst_setDst]
  exact ⟨trivial, trivial, trivial, trivial, trivial⟩

theorem c5_witness :
    (op_unlock 1 { ds := SrDatastore.running } "running"
        { srOk := true, srMsgs := [], now := 9 } id tblR1).reply = NcReply.ok ∧
    (op_unlock 1 { ds := SrDatastore.running } "running"
        { srOk := true, srMsgs := [], now := 9 } id tblR1).calls
      = (if SrDatastore.running = SrDatastore.running then []
          else [EngCall.switchDs SrDatastore.running])
        ++ [EngCall.unlockDs, EngCall.discard] ∧
    (op_unlock 1 { ds := SrDatastore.running } "running"
        { srOk := true, srMsgs := [], now := 9 } id tblR1).table
      = setDst (setDsl tblR1 SrDatastore.running none) SrDatastore.running 0 ∧
    getDsl (op_unlock 1 { ds := SrDatastore.running } "running"
        { srOk := true, srMsgs := [], now := 9 } id tblR1).table
      SrDatastore.running = none ∧
    getDst (op_unlock 1 { ds := SrDatastore.running } "running"
        { srOk := true, srMsgs := [], now := 9 } id tblR1).table
      SrDatastore.running = 0 :=
  c5_release_success 1 { ds := SrDatastore.running } "running"
    { srOk := true, srMsgs := [], now := 9 } tblR1 SrDatastore.running
    (by decide) (by decide) (by decide)

/-- C6: `op_unlock` on an unowned slot fails with the protocol
operation-failed error (lock not active), and on a slot owned by a
different session fails with lock-denied naming the owner; in both
cases the table is unchanged and no sysrepo engine primitive is
invoked (at most the datastore switch of the session context). -/
theorem c6_release_precondition_errors (ncs : Nat) (sess : Np2Sessions)
    (dsname : String) (env : LockEnv) (t : DsLockInfo) (ds : SrDatastore)
    (holder : Nat) (hname : dsOfName dsname = some ds) :
    (getDsl t ds = none →
      (op_unlock ncs sess dsname env id t).reply
          = NcReply.err [NcErr.opFailed (notActiveMsg dsname ncs)] ∧
      (op_unlock ncs sess dsname env id t).table = t ∧
      (op_unlock ncs sess dsname env id t).calls
          = (if ds = sess.ds then [] else [EngCall.switchDs ds])) ∧
    (getDsl t ds = some holder → holder ≠ ncs →
      (op_unlock ncs sess dsname env id t).reply
          = NcReply.err [NcErr.lockDenied holder] ∧
      (op_unlock ncs sess dsname env id t).table = t ∧
      (op_unlock ncs sess dsname env id t).calls
          = (if ds = sess.ds then [] else [EngCall.switchDs ds])) := by
  constructor
  · intro h1
    simp only [op_unlock, hname, h1]
    exact ⟨trivial, trivial, trivial⟩
  · intro h1 h2
    simp only [op_unlock, hname, h1, if_neg h2]
    exact ⟨trivial, trivial, trivial⟩

theorem c6_witness :
    ((op_unlock 2 { ds := SrDatastore.running } "startup"
        { srOk := true, srMsgs := [], now := 9 } id tblR1).reply
      = NcReply.err [NcErr.opFailed (notActiveMsg "startup" 2)]) ∧
    ((op_unlock 2 { ds := SrDatastore.running } "running"
        { srOk := true, srMsgs := [], now := 9 } id tblR1).reply
      = NcReply.err [NcErr.lockDenied 1]) :=
  ⟨((c6_release_precondition_errors 2 { ds := SrDatastore.running } "startup"
      { srOk := true, srMsgs := [], now := 9 } tblR1 SrDatastore.startup 1
      (by decide)).1 (by decide)).1,
   ((c6_release_precondition_errors 2 { ds := SrDatastore.running } "running"
      { srOk := true, srMsgs := [], now := 9 } tblR1 SrDatastore.running 1
      (by decide)).2 (by decide) (by decide)).1⟩

/-- C7: an unrecognized store name makes both `op_lock` and `op_unlock`
fail with the protocol operation-failed (internal) error regardless of
any lock state, interference, or oracle, touching neither the lock
table nor sysrepo (the call trace is empty). -/
theorem c7_invalid_target (ncs : Nat) (sess : Np2Sessions) (dsname : String)
    (env : LockEnv) (gap : DsLockInfo → DsLockInfo) (t : DsLockInfo)
    (ncs2 : Nat) (sess2 : Np2Sessions) (env2 : LockEnv)
    (gap2 : DsLockInfo → DsLockInfo) (t2 : DsLockInfo)
    (hname : dsOfName dsname = none) :
    (op_lock ncs sess dsname env gap t).reply
        = NcReply.err [NcErr.opFailed eintMsg] ∧
    (op_lock ncs sess dsname env gap t).table = t ∧
    (op_lock ncs sess dsname env gap t).calls = [] ∧
    (op_unlock ncs2 sess2 dsname env2 gap2 t2).reply
        = NcReply.err [NcErr.opFailed eintMsg] ∧
    (op_unlock ncs2 sess2 dsname env2 gap2 t2).table = t2 ∧
    (op_unlock ncs2 sess2 dsname env2 gap2 t2).calls = [] := by
  simp only [op_lock, op_unlock, hname]
  exact ⟨trivial, trivial, trivial, trivial, trivial, trivial⟩

theorem c7_witness :
    (op_lock 1 { ds := SrDatastore.running } "unknown-store"
        { srOk := true, srMsgs := [], now := 5 } id tblR1).reply
      = NcReply.err [NcErr.opFailed eintMsg] ∧
    (op_lock 1 { ds := SrDatastore.running } "unknown-store"
        { srOk := true, srMsgs := [], now := 5 } id tblR1).table = tblR1 ∧
    (op_lock 1 { ds := SrDatastore.running } "unknown-store"
        { srOk := true, srMsgs := [], now := 5 } id tblR1).calls = [] ∧
    (op_unlock 2 { ds := SrDatastore.startup } "unknown-store"
        { srOk := false, srMsgs := ["m"], now := 6 } id tbl0).reply
      = NcReply.err [NcErr.opFailed eintMsg] ∧
    (op_unlock 2 { ds := SrDatastore.startup } "unknown-store"
        { srOk := false, srMsgs := ["m"], now := 6 } id tbl0).table = tbl0 ∧
    (op_unlock 2 { ds := SrDatastore.startup } "unknown-store"
        { srOk := false, srMsgs := ["m"], now := 6 } id tbl0).calls = [] :=
  c7_invalid_target 1 { ds := SrDatastore.running } "unknown-store"
    { srOk := true, srMsgs := [], now := 5 } id tblR1
    2 { ds := SrDatastore.startup } { srOk := false, srMsgs := ["m"], now := 6 }
    id tbl0 (by decide)

/-- C8: both handlers preserve the per-slot invariant that an owner is
recorded exactly when a (nonzero) acquisition time is recorded — a
successful lock sets both together, a successful unlock clears both
together, and no other path touches either field. -/
theorem c8_owner_iff_time (ncs : Nat) (sess : Np2Sessions) (dsname : String)
    (env : LockEnv) (t : DsLockInfo)
    (hinv : slotInv t) (hnow : env.now ≠ 0) :
    slotInv (op_lock ncs sess dsname env id t).table ∧
    slotInv (op_unlock ncs sess dsname env id t).table := by
  obtain ⟨i1, i2, i3⟩ := hinv
  constructor
  · cases hn : dsOfName dsname with
    | none =>
        simp only [op_lock, hn]
        exact ⟨i1, i2, i3⟩
    | some ds2 =>
        cases h2 : getDsl t ds2 with
        | some holder =>
            simp only [op_lock, hn, h2]
            exact ⟨i1, i2, i3⟩
        | none =>
            cases h3 : env.srOk with
            | false =>
                simp only [op_lock, hn, h2, h3, id_eq, Bool.false_eq_true,
                  if_false]
                exact ⟨i1, i2, i3⟩
            | true =>
                simp only [op_lock, hn, h2, h3, id_eq, eq_self_iff_true,
                  if_true]
                cases ds2 <;>
                  simp [slotInv, setDsl, setDst, hnow, i1, i2, i3]
  · cases hn : dsOfName dsname with
    | none =>
        simp only [op_unlock, hn]
        exact ⟨i1, i2, i3⟩
    | some ds2 =>
        cases h2 : getDsl t ds2 with
        | none =>
            simp only [op_unlock, hn, h2]
            exact ⟨i1, i2, i3⟩
        | some holder =>
            by_cases hh : holder = ncs
            · cases h3 : env.srOk with
              | false =>
                  simp only [op_unlock, hn, h2, hh, h3, id_eq,
                    eq_self_iff_true, if_true, Bool.false_eq_true, if_false]
                  exact ⟨i1, i2, i3⟩
              | true =>
                  simp only [op_unlock, hn, h2, hh, h3, id_eq,
                    eq_self_iff_true, if_true]
                  cases ds2 <;> simp [slotInv, setDsl, setDst, i1, i2, i3]
            · simp only [op_unlock, hn, h2, if_neg hh]
              exact ⟨i1, i2, i3⟩

theorem c8_witness :
    slotInv (op_lock 2 { ds := SrDatastore.candidate } "candidate"
        { srOk := true, srMsgs := [], now := 11 } id tblR1).table ∧
    slotInv (op_unlock 2 { ds := SrDatastore.candidate } "candidate"
        { srOk := true, srMsgs := [], now := 11 } id tblR1).table :=
  c8_owner_iff_time 2 { ds := SrDatastore.candidate } "candidate"
    { srOk := true, srMsgs := [], now := 11 } tblR1 (by decide) (by decide)

/-- C9: after its read-mode ownership check passed, `op_unlock` never
re-validates the owner under the write acquisition: even when the
interference window hands the slot to another session `b`, the sysrepo
unlock is still called, the handler replies ok and clears the slot —
whereas `op_lock` in the same situation re-checks, never reaches the
sysrepo lock call, and is denied with holder `b`. -/
theorem c9_asymmetric_no_recheck (ncs b : Nat) (sess : Np2Sessions)
    (dsname : String) (env : LockEnv) (gap : DsLockInfo → DsLockInfo)
    (t t3 : DsLockInfo) (ds : SrDatastore)
    (hname : dsOfName dsname = some ds)
    (hown : getDsl t ds = some ncs)
    (hgap : getDsl (gap t) ds = some b)
    (hb : b ≠ ncs)
    (hok : env.srOk = true)
    (h1 : getDsl t3 ds = none)
    (h2 : getDsl (gap t3) ds = some b) :
    (op_unlock ncs sess dsname env gap t).reply = NcReply.ok ∧
    EngCall.unlockDs ∈ (op_unlock ncs sess dsname env gap t).calls ∧
    getDsl (op_unlock ncs sess dsname env gap t).table ds = none ∧
    (op_lock ncs sess dsname env gap t3).reply
        = NcReply.err [NcErr.lockDenied b] ∧
    EngCall.lockDs ∉ (op_lock ncs sess dsname env gap t3).calls := by
  refine ⟨?_, ?_, ?_, ?_, ?_⟩
  · simp only [op_unlock, hname, hown, hok, eq_self_iff_true, if_true]
  · simp only [op_unlock, hname, hown, hok, eq_self_iff_true, if_true]
    simp
  · simp only [op_unlock, hname, hown, hok, eq_self_iff_true, if_true,
      getDsl_setDst, getDsl_setDsl]
  · simp only [op_lock, hname, h1, h2]
  · simp only [op_lock, hname, h1, h2]
    by_cases hsw : ds = sess.ds <;> simp [hsw]

theorem c9_witness :
    (op_unlock 1 { ds := SrDatastore.running } "running"
        { srOk := true, srMsgs := [], now := 9 } (fun _ => tblR2) tblR1).reply
      = NcReply.ok ∧
    EngCall.unlockDs ∈ (op_unlock 1 { ds := SrDatastore.running } "running"
        { srOk := true, srMsgs := [], now := 9 } (fun _ => tblR2) tblR1).calls ∧
    getDsl (op_unlock 1 { ds := SrDatastore.running } "running"
        { srOk := true, srMsgs := [], now := 9 } (fun _ => tblR2) tblR1).table
      SrDatastore.running = none ∧
    (op_lock 1 { ds := SrDatastore.running } "running"
        { srOk := true, srMsgs := [], now := 9 } (fun _ => tblR2) tbl0).reply
      = NcReply.err [NcErr.lockDenied 2] ∧
    EngCall.lockDs ∉ (op_lock 1 { ds := SrDatastore.running } "running"
        { srOk := true, srMsgs := [], now := 9 } (fun _ => tblR2) tbl0).calls :=
  c9_asymmetric_no_recheck 1 2 { ds := SrDatastore.running } "running"
    { srOk := true, srMsgs := [], now := 9 } (fun _ => tblR2) tblR1 tbl0
    SrDatastore.running (by decide) (by decide) (by decide) (by decide)
    (by decide) (by decide) (by decide)

/-- C10: when the sysrepo unlock call fails inside `op_unlock`, the
slot is left unchanged — the session still holds the lock —, no
discard of pending changes is issued, and the error reply carries the
drained engine messages with a lock-denied (holder 0) error appended. -/
theorem c10_release_engine_failure (ncs : Nat) (sess : Np2Sessions)
    (dsname : String) (env : LockEnv) (t : DsLockInfo) (ds : SrDatastore)
    (hname : dsOfName dsname = some ds)
    (hown : getDsl t ds = some ncs)
    (hfail : env.srOk = false) :
    (op_unlock ncs sess dsname env id t).reply
        = NcReply.err (op_build_err_sr env.srMsgs ++ [NcErr.lockDenied 0]) ∧
    (op_unlock ncs sess dsname env id t).table = t ∧
    getDsl (op_unlock ncs sess dsname env id t).table ds = some ncs ∧
    getDst (op_unlock ncs sess dsname env id t).table ds = getDst t ds ∧
    EngCall.discard ∉ (op_unlock ncs sess dsname env id t).calls := by
  simp only [op_unlock, hname, hown, id_eq, eq_self_iff_true, if_true, hfail,
    Bool.false_eq_true, if_false]
  refine ⟨trivial, trivial, trivial, trivial, ?_⟩
  by_cases hsw : ds = sess.ds <;> simp [hsw]

theorem c10_witness :
    (op_unlock 1 { ds := SrDatastore.running } "running"
        { srOk := false, srMsgs := ["lock held externally"], now := 9 }
        id tblR1).reply
      = NcReply.err [NcErr.srError "lock held externally",
          NcErr.lockDenied 0] ∧
    (op_unlock 1 { ds := SrDatastore.running } "running"
        { srOk := false, srMsgs := ["lock held externally"], now := 9 }
        id tblR1).table = tblR1 :=
  have h := c10_release_engine_failure 1 { ds := SrDatastore.running }
    "running" { srOk := false, srMsgs := ["lock held externally"], now := 9 }
    tblR1 SrDatastore.running (by decide) (by decide) (by decide)
  ⟨h.1, h.2.1⟩

example :
    (op_lock 1 { ds := SrDatastore.running } "running"
      { srOk := true, srMsgs := [], now := 5 } id tbl0).reply = NcReply.ok := by
  decide

example :
    (op_lock 2 { ds := SrDatastore.running } "running"
      { srOk := true, srMsgs := [], now := 9 } id tblR1).reply
      = NcReply.err [NcErr.lockDenied 1] := by
  decide

example :
    (op_unlock 1 { ds := SrDatastore.running } "running"
      { srOk := true, srMsgs := [], now := 9 } id tblR1).table = tbl0 := by
  decide

end Netopeer2
